import Mathlib

/-!
# Formula 1 data pipeline — verification of the specification's claims

A shallow embedding of the Formula 1 batch ETL pipeline
(`main.py`, `src/data_loader.py`, `src/data_cleaning.py`,
`src/data_enrichment.py`, `src/features.py`, `src/downloading_dataset.py`).

CSV tables are embedded as lists of row structures; pandas filter, merge and
group-by operations become list filters, lookups and folds; file I/O becomes
explicit values: a read that may raise is an `Option` input (`none` models the
thrown exception), a function's write is the second component of its result
(`none` models "no write performed"), and a returned path is an
`Option String` (`none` models Python's `None` return).
-/

namespace F1

/-! ## String helpers

Python's `word in text` is substring containment and `str.lower()` maps each
character to lower case.  This toolchain has no kernel-reducing substring
primitive, so both are defined over the underlying character lists. -/

/-- `w.isPrefixOfCL l`: the character list `w` is a prefix of `l`. -/
def isPrefixOfCL : List Char → List Char → Bool
  | [], _ => true
  | _ :: _, [] => false
  | a :: as, b :: bs => a = b && isPrefixOfCL as bs

/-- Python `w in t` on strings: `w` occurs as a contiguous substring of `t`. -/
def containsWord (t w : String) : Bool :=
  t.data.tails.any (fun s => isPrefixOfCL w.data s)

/-- Python `str.lower()` (all status texts are ASCII). -/
def lowerPy (s : String) : String := ⟨s.data.map Char.toLower⟩

theorem isPrefixOfCL_iff (w l : List Char) : isPrefixOfCL w l = true ↔ w <+: l := by
  induction w generalizing l with
  | nil => simp [isPrefixOfCL]
  | cons a as ih =>
    cases l with
    | nil => simp [isPrefixOfCL]
    | cons b bs =>
      simp only [isPrefixOfCL, Bool.and_eq_true, decide_eq_true_eq, ih,
        List.cons_prefix_cons]

theorem containsWord_iff (t w : String) :
    containsWord t w = true ↔ w.data <:+: t.data := by
  rw [containsWord, List.any_eq_true, List.infix_iff_prefix_suffix]
  constructor
  · rintro ⟨s, hs, hp⟩
    exact ⟨s, (isPrefixOfCL_iff _ _).mp hp, (List.mem_tails _ _).mp hs⟩
  · rintro ⟨s, hp, hs⟩
    exact ⟨s, (List.mem_tails _ _).mpr hs, (isPrefixOfCL_iff _ _).mpr hp⟩

/-! ## `data_enrichment.add_status_dnf_categories` — the DNF classifier (C1, C9) -/

/-- The crash keywords of `classify_mech_crash_other` (data_enrichment.py:290). -/
def crashKeywords : List String :=
  ["accident", "collision", "crash", "contact", "spun off", "damage"]

/-- The mechanical keywords of `classify_mech_crash_other`
(data_enrichment.py:294-301), verbatim, including the capitalised
`"Handling"` entry of the source. -/
def mechanicalKeywords : List String :=
  ["engine", "gearbox", "hydraulics", "brakes", "suspension",
   "exhaust", "clutch", "power", "fuel", "overheating",
   "oil", "radiator", "turbo", "driveshaft", "mechanical",
   "transmission", "electrical", "differential", "puncture",
   "front wing", "water", "wheel", "steering", "electronics",
   "Handling", "rear wing", "vibrations", "undertray", "cooling system",
   "throttle", "technical", "handling"]

/-- The other-DNF keywords of `classify_mech_crash_other`
(data_enrichment.py:305-306). -/
def otherDnfKeywords : List String :=
  ["retired", "withdrew", "disqualified", "illness", "debris", "underweight"]

/-- `classify_mech_crash_other` (data_enrichment.py:285-309): lower-case the
status text, then test the crash, mechanical and other-DNF keyword lists in
that order. -/
def classify_mech_crash_other (text : String) : String :=
  let t := lowerPy text
  if crashKeywords.any (fun w => containsWord t w) then "crash"
  else if mechanicalKeywords.any (fun w => containsWord t w) then "mechanical"
  else if otherDnfKeywords.any (fun w => containsWord t w) then "other_dnf"
  else "no_dnf"

/-- A status row of `status_cleaned.csv`. -/
structure StatusRow where
  statusId : Int
  status : String
deriving DecidableEq, Repr

/-- A row of `status_cleaned.csv` after `add_status_dnf_categories`. -/
structure EnrichedStatusRow where
  statusId : Int
  status : String
  dnf_category : String
  is_mechanical : Bool
  is_crash : Bool
  is_other_dnf : Bool
  is_no_dnf : Bool
deriving DecidableEq, Repr

/-- The row transformation of `add_status_dnf_categories`
(data_enrichment.py:311-315): `dnf_category` is the classifier's label and
each boolean column compares that single label with one of the four names. -/
def add_status_dnf_rows (rows : List StatusRow) : List EnrichedStatusRow :=
  rows.map fun r =>
    let cat := classify_mech_crash_other r.status
    { statusId := r.statusId, status := r.status, dnf_category := cat,
      is_mechanical := cat == "mechanical", is_crash := cat == "crash",
      is_other_dnf := cat == "other_dnf", is_no_dnf := cat == "no_dnf" }

/-- `add_status_dnf_categories` (data_enrichment.py:263-335) as a file
operation: a failed read of `status_cleaned.csv` is caught and the function
returns `None` without writing; otherwise the enriched table is written back
and the file's path returned. -/
def add_status_dnf_categories (raw : Option (List StatusRow)) :
    Option String × Option (List EnrichedStatusRow) :=
  match raw with
  | none => (none, none)
  | some df => (some "status_cleaned.csv", some (add_status_dnf_rows df))

theorem classify_eq (text : String) :
    classify_mech_crash_other text =
      if crashKeywords.any (fun w => containsWord (lowerPy text) w) then "crash"
      else if mechanicalKeywords.any (fun w => containsWord (lowerPy text) w) then "mechanical"
      else if otherDnfKeywords.any (fun w => containsWord (lowerPy text) w) then "other_dnf"
      else "no_dnf" := rfl

/-- The classifier always lands in one of the four labels. -/
theorem classify_mem (text : String) :
    classify_mech_crash_other text = "crash" ∨
    classify_mech_crash_other text = "mechanical" ∨
    classify_mech_crash_other text = "other_dnf" ∨
    classify_mech_crash_other text = "no_dnf" := by
  rw [classify_eq]
  split_ifs <;> simp

theorem anyContains_iff (kws : List String) (t : String) :
    (kws.any fun w => containsWord t w) = true ↔
      ∃ w ∈ kws, w.data <:+: t.data := by
  rw [List.any_eq_true]
  exact exists_congr fun w => and_congr_right fun _ => containsWord_iff t w

/-- C1: `add_status_dnf_categories` assigns every status text exactly one
`dnf_category` by keyword matching on the lowercased text, with the fixed
priority crash > mechanical > other_dnf > no_dnf, and for every input string
the result is one of these four categories. -/
theorem add_status_dnf_categories_classifies (text : String) :
    (classify_mech_crash_other text = "crash" ↔
      ∃ w ∈ crashKeywords, w.data <:+: (lowerPy text).data) ∧
    (classify_mech_crash_other text = "mechanical" ↔
      ¬(∃ w ∈ crashKeywords, w.data <:+: (lowerPy text).data) ∧
      ∃ w ∈ mechanicalKeywords, w.data <:+: (lowerPy text).data) ∧
    (classify_mech_crash_other text = "other_dnf" ↔
      ¬(∃ w ∈ crashKeywords, w.data <:+: (lowerPy text).data) ∧
      ¬(∃ w ∈ mechanicalKeywords, w.data <:+: (lowerPy text).data) ∧
      ∃ w ∈ otherDnfKeywords, w.data <:+: (lowerPy text).data) ∧
    (classify_mech_crash_other text = "no_dnf" ↔
      ¬(∃ w ∈ crashKeywords, w.data <:+: (lowerPy text).data) ∧
      ¬(∃ w ∈ mechanicalKeywords, w.data <:+: (lowerPy text).data) ∧
      ¬(∃ w ∈ otherDnfKeywords, w.data <:+: (lowerPy text).data)) ∧
    (classify_mech_crash_other text = "crash" ∨
     classify_mech_crash_other text = "mechanical" ∨
     classify_mech_crash_other text = "other_dnf" ∨
     classify_mech_crash_other text = "no_dnf") := by
  have hc := anyContains_iff crashKeywords (lowerPy text)
  have hm := anyContains_iff mechanicalKeywords (lowerPy text)
  have ho := anyContains_iff otherDnfKeywords (lowerPy text)
  rw [classify_eq]
  by_cases h1 : ∃ w ∈ crashKeywords, w.data <:+: (lowerPy text).data
  · rw [if_pos (hc.mpr h1)]
    refine ⟨iff_of_true rfl h1, ?_, ?_, ?_, Or.inl rfl⟩ <;>
      exact iff_of_false (by decide) (fun h => h.1 h1)
  · rw [if_neg (fun hh => h1 (hc.mp hh))]
    by_cases h2 : ∃ w ∈ mechanicalKeywords, w.data <:+: (lowerPy text).data
    · rw [if_pos (hm.mpr h2)]
      refine ⟨iff_of_false (by decide) h1, iff_of_true rfl ⟨h1, h2⟩, ?_, ?_,
        Or.inr (Or.inl rfl)⟩ <;>
        exact iff_of_false (by decide) (fun h => h.2.1 h2)
    · rw [if_neg (fun hh => h2 (hm.mp hh))]
      by_cases h3 : ∃ w ∈ otherDnfKeywords, w.data <:+: (lowerPy text).data
      · rw [if_pos (ho.mpr h3)]
        exact ⟨iff_of_false (by decide) h1,
          iff_of_false (by decide) (fun h => h2 h.2),
          iff_of_true rfl ⟨h1, h2, h3⟩,
          iff_of_false (by decide) (fun h => h.2.2 h3),
          Or.inr (Or.inr (Or.inl rfl))⟩
      · rw [if_neg (fun hh => h3 (ho.mp hh))]
        exact ⟨iff_of_false (by decide) h1,
          iff_of_false (by decide) (fun h => h2 h.2),
          iff_of_false (by decide) (fun h => h3 h.2.2),
          iff_of_true rfl ⟨h1, h2, h3⟩,
          Or.inr (Or.inr (Or.inr rfl))⟩

/-- C9: in the table produced by `add_status_dnf_categories`, every row has
exactly one of the four boolean columns `is_mechanical`, `is_crash`,
`is_other_dnf`, `is_no_dnf` equal to `true`: the categories are mutually
exclusive and exhaustive, since each flag compares the single `dnf_category`
value with one of the four labels. -/
theorem add_status_dnf_flags_exclusive_exhaustive
    (rows : List StatusRow) (e : EnrichedStatusRow)
    (he : e ∈ add_status_dnf_rows rows) :
    [e.is_mechanical, e.is_crash, e.is_other_dnf, e.is_no_dnf].count true = 1 := by
  obtain ⟨r, -, rfl⟩ := List.mem_map.mp he
  rcases classify_mem r.status with h | h | h | h <;>
    simp [add_status_dnf_rows, h]

/-- Witness for C9 at a concrete status table (statusId 4, "Collision"). -/
theorem add_status_dnf_flags_exclusive_exhaustive_witness :
    [(⟨4, "Collision", "crash", false, true, false, false⟩ :
        EnrichedStatusRow).is_mechanical,
     EnrichedStatusRow.is_crash ⟨4, "Collision", "crash", false, true, false, false⟩,
     EnrichedStatusRow.is_other_dnf ⟨4, "Collision", "crash", false, true, false, false⟩,
     EnrichedStatusRow.is_no_dnf ⟨4, "Collision", "crash", false, true, false, false⟩].count true = 1 :=
  add_status_dnf_flags_exclusive_exhaustive [⟨4, "Collision"⟩]
    ⟨4, "Collision", "crash", false, true, false, false⟩ (by decide)

/-! ## `data_loader.filter_table_by_race_ids` (C2) -/

/-- A row of a race-keyed raw table (results, lap_times, pit_stops, …): its
`raceId` column plus the remaining cells of the row. -/
structure RaceKeyedRow where
  raceId : Int
  rest : List String
deriving DecidableEq, Repr

/-- `filter_table_by_race_ids` (data_loader.py:100-156): read the raw table
(`none` models a read exception, caught with a `None` return and no write),
keep the rows whose `raceId` is in the given set, write them to
`{table_name}_cleaned.csv` and return that path. -/
def filter_table_by_race_ids (table_name : String) (race_ids : List Int)
    (raw : Option (List RaceKeyedRow)) :
    Option String × Option (List RaceKeyedRow) :=
  match raw with
  | none => (none, none)
  | some df =>
      let df_cleaned := df.filter (fun r => race_ids.contains r.raceId)
      (some (table_name ++ "_cleaned.csv"), some df_cleaned)

theorem count_filter_eq {α : Type} [DecidableEq α] (p : α → Bool) (a : α)
    (l : List α) :
    (l.filter p).count a = if p a then l.count a else 0 := by
  induction l with
  | nil => simp
  | cons b bs ih =>
    by_cases hb : p b
    · rcases eq_or_ne a b with rfl | hne
      · simp [List.filter_cons, hb, List.count_cons, ih]
      · simp [List.filter_cons, hb, List.count_cons, Ne.symm hne, ih]
    · rcases eq_or_ne a b with rfl | hne
      · simp [List.filter_cons, hb, List.count_cons, ih]
      · simp [List.filter_cons, hb, List.count_cons, Ne.symm hne, ih]

/-- C2: for every input table with a `raceId` column and every set of race
ids, `filter_table_by_race_ids` writes exactly the input rows whose `raceId`
is in the set, each as often as it occurs in the input and in the input's
order, returns the path of the written file, and never outputs a row whose
`raceId` is outside the set. -/
theorem filter_table_by_race_ids_correct (table_name : String)
    (race_ids : List Int) (df : List RaceKeyedRow) :
    (filter_table_by_race_ids table_name race_ids (some df)).1 =
      some (table_name ++ "_cleaned.csv") ∧
    ∃ written,
      (filter_table_by_race_ids table_name race_ids (some df)).2 = some written ∧
      written.Sublist df ∧
      (∀ r : RaceKeyedRow,
        written.count r = if r.raceId ∈ race_ids then df.count r else 0) ∧
      (∀ r ∈ written, r ∈ df ∧ r.raceId ∈ race_ids) ∧
      (∀ r : RaceKeyedRow, r.raceId ∉ race_ids → r ∉ written) := by
  refine ⟨rfl, df.filter (fun r => race_ids.contains r.raceId), rfl,
    List.filter_sublist df, ?_, ?_, ?_⟩
  · intro r
    rw [count_filter_eq]
    by_cases h : r.raceId ∈ race_ids
    · rw [if_pos h, if_pos]
      exact (List.elem_iff).mpr h
    · rw [if_neg h, if_neg]
      simpa [List.elem_iff] using h
  · intro r hr
    have := List.mem_filter.mp hr
    exact ⟨this.1, List.elem_iff.mp this.2⟩
  · intro r h hr
    exact h (List.elem_iff.mp (List.mem_filter.mp hr).2)

/-! ## `data_enrichment.fill_circuit_extra_info` (C7) -/

/-- A circuit row of `circuits.csv` / `circuits_cleaned.csv`: its `circuitId`
plus the remaining cells. -/
structure CircuitRow where
  circuitId : Int
  rest : List String
deriving DecidableEq, Repr

/-- A circuit row after enrichment: the three new columns are nullable. -/
structure EnrichedCircuitRow where
  circuitId : Int
  rest : List String
  length_km : Option ℚ
  is_night_race : Option Bool
  track_type : Option String
deriving DecidableEq, Repr

/-- The static `circuits_info` dictionary of `fill_circuit_extra_info`
(data_enrichment.py:81-112): `circuitId ↦ (length_km, is_night_race,
track_type)`. -/
def circuits_info : List (Int × ℚ × Bool × String) :=
  [(1, 5.278, false, "balanced"),
   (3, 5.412, true, "balanced"),
   (4, 4.657, false, "balanced"),
   (5, 5.338, false, "balanced"),
   (6, 3.337, false, "technical"),
   (7, 4.361, false, "balanced"),
   (9, 5.891, false, "high_speed"),
   (11, 4.381, false, "technical"),
   (13, 7.004, false, "high_speed"),
   (14, 5.793, false, "high_speed"),
   (15, 4.927, true, "technical"),
   (17, 5.451, false, "balanced"),
   (18, 4.309, false, "technical"),
   (20, 5.148, false, "balanced"),
   (21, 4.909, false, "technical"),
   (22, 5.807, false, "technical"),
   (80, 6.201, true, "high_speed"),
   (24, 5.281, true, "technical"),
   (32, 4.304, false, "balanced"),
   (34, 5.842, false, "balanced"),
   (39, 4.259, false, "balanced"),
   (69, 5.513, false, "balanced"),
   (70, 4.326, false, "high_speed"),
   (71, 5.848, false, "balanced"),
   (73, 6.003, false, "high_speed"),
   (75, 4.653, false, "balanced"),
   (76, 5.245, false, "high_speed"),
   (77, 6.174, true, "high_speed"),
   (78, 5.419, true, "balanced"),
   (79, 5.412, false, "technical")]

/-- `fill_circuit_extra_info` (data_enrichment.py:66-154): every row whose
`circuitId` is a key of `circuits_info` gets the dictionary's three values;
every other row keeps the three columns `NA` (the freshly created columns
start out all-`NA`).  A failed read is caught and the function returns `None`
without writing. -/
def fill_circuit_extra_info (raw : Option (List CircuitRow)) :
    Option String × Option (List EnrichedCircuitRow) :=
  match raw with
  | none => (none, none)
  | some df =>
      (some "circuits_cleaned.csv", some (df.map fun r =>
        match circuits_info.lookup r.circuitId with
        | some info =>
            { circuitId := r.circuitId, rest := r.rest,
              length_km := some info.1, is_night_race := some info.2.1,
              track_type := some info.2.2 }
        | none =>
            { circuitId := r.circuitId, rest := r.rest,
              length_km := none, is_night_race := none, track_type := none }))

/-- C7: in the table written by `fill_circuit_extra_info`, every row carries
exactly the dictionary's values for its `circuitId` when that id is a key of
`circuits_info` (an `Option.map` over the dictionary lookup, so all three
columns are `NA` exactly when the id is not a key), and every output row comes
from an input row with the same `circuitId` and unchanged remaining cells. -/
theorem fill_circuit_extra_info_correct (df : List CircuitRow)
    (e : EnrichedCircuitRow)
    (he : e ∈ ((fill_circuit_extra_info (some df)).2.getD [])) :
    e.length_km = (circuits_info.lookup e.circuitId).map (fun i => i.1) ∧
    e.is_night_race = (circuits_info.lookup e.circuitId).map (fun i => i.2.1) ∧
    e.track_type = (circuits_info.lookup e.circuitId).map (fun i => i.2.2) ∧
    ∃ r ∈ df, e.circuitId = r.circuitId ∧ e.rest = r.rest := by
  simp only [fill_circuit_extra_info, Option.getD_some] at he
  obtain ⟨r, hr, rfl⟩ := List.mem_map.mp he
  cases h : circuits_info.lookup r.circuitId <;>
    · simp only [h]
      exact ⟨rfl, rfl, rfl, r, hr, rfl, rfl⟩

/-- Witness for C7: circuit 2 is not a key of the dictionary, so its enriched
row keeps all three columns `NA`. -/
theorem fill_circuit_extra_info_correct_witness :
    (⟨2, ["sepang"], none, none, none⟩ : EnrichedCircuitRow).length_km =
      (circuits_info.lookup (2 : Int)).map (fun i => i.1) ∧
    EnrichedCircuitRow.is_night_race ⟨2, ["sepang"], none, none, none⟩ =
      (circuits_info.lookup (2 : Int)).map (fun i => i.2.1) ∧
    EnrichedCircuitRow.track_type ⟨2, ["sepang"], none, none, none⟩ =
      (circuits_info.lookup (2 : Int)).map (fun i => i.2.2) ∧
    ∃ r ∈ [(⟨2, ["sepang"]⟩ : CircuitRow)],
      (2 : Int) = r.circuitId ∧ ["sepang"] = r.rest :=
  fill_circuit_extra_info_correct [⟨2, ["sepang"]⟩]
    ⟨2, ["sepang"], none, none, none⟩ (by decide)

/-! ## The duplicated `filter_circuits_by_races` (C8)

`data_cleaning.py:95-139` and `data_loader.py:159-211` both filter
`circuits.csv` down to the circuits used in `races_cleaned.csv`.  The
data_cleaning variant keeps the unique `circuitId` values as an array and
filters with `isin`; the data_loader variant additionally wraps them in a
Python `set` (modelled as a `Finset`), catches read errors and returns the
output path. -/

/-- A race row of `races_cleaned.csv`: the columns the pipeline consumes
(`raceId`, `year`, `circuitId`) plus the remaining cells. -/
structure RaceRow where
  raceId : Int
  year : Int
  circuitId : Int
  rest : List String
deriving DecidableEq, Repr

/-- `data_cleaning.filter_circuits_by_races` (data_cleaning.py:95-139): keep
the circuits whose `circuitId` appears among the unique circuit ids of
`races_cleaned.csv` (reads are not guarded there, so only the row
transformation is modelled; C6's counterexample covers the unguarded read). -/
def dc_filter_circuits_by_races (races : List RaceRow)
    (circuits : List CircuitRow) : List CircuitRow :=
  let circuitId_recent := (races.map (fun r => r.circuitId)).dedup
  circuits.filter (fun c => circuitId_recent.contains c.circuitId)

/-- `data_loader.filter_circuits_by_races` (data_loader.py:159-211): read both
files (a failed read is caught: `None`, no write), build the `set` of circuit
ids of `races_cleaned.csv`, keep the circuits in that set, write
`circuits_cleaned.csv` and return its path. -/
def dl_filter_circuits_by_races (races_read : Option (List RaceRow))
    (circuits_read : Option (List CircuitRow)) :
    Option String × Option (List CircuitRow) :=
  match races_read, circuits_read with
  | some races, some circuits =>
      let valid_circuits : Finset Int := (races.map (fun r => r.circuitId)).toFinset
      (some "circuits_cleaned.csv",
       some (circuits.filter (fun c => decide (c.circuitId ∈ valid_circuits))))
  | _, _ => (none, none)

/-- C8: given identical `races_cleaned` and `circuits` inputs, the
`filter_circuits_by_races` of data_cleaning.py and the one of data_loader.py
write `circuits_cleaned` tables with identical row contents — the circuits
whose `circuitId` appears in `races_cleaned` — differing only in error
handling and in returning the output path. -/
theorem filter_circuits_by_races_variants_agree (races : List RaceRow)
    (circuits : List CircuitRow) :
    (dl_filter_circuits_by_races (some races) (some circuits)).2 =
      some (dc_filter_circuits_by_races races circuits) ∧
    ∀ c : CircuitRow,
      c ∈ dc_filter_circuits_by_races races circuits ↔
        c ∈ circuits ∧ c.circuitId ∈ races.map (fun r => r.circuitId) := by
  constructor
  · simp only [dl_filter_circuits_by_races, dc_filter_circuits_by_races,
      Option.some.injEq]
    apply List.filter_congr
    intro c _
    by_cases h : c.circuitId ∈ races.map (fun r => r.circuitId)
    · rw [decide_eq_true (List.mem_toFinset.mpr h)]
      exact (List.elem_iff.mpr (List.mem_dedup.mpr h)).symm
    · rw [decide_eq_false (fun hh => h (List.mem_toFinset.mp hh))]
      cases hcon : (races.map (fun r => r.circuitId)).dedup.contains c.circuitId
      · rfl
      · exact absurd (List.mem_dedup.mp (List.elem_iff.mp hcon)) h
  · intro c
    simp [dc_filter_circuits_by_races, List.mem_filter, List.elem_iff,
      List.mem_dedup]

/-! ## `data_enrichment.fill_races_distance_km` (C3) -/

/-- A result row of `results_cleaned.csv`: the columns the pipeline consumes.
`positionOrder` is nullable (pandas `notna` is tested on it); `points` is a
decimal number. -/
structure ResultRow where
  raceId : Int
  driverId : Int
  constructorId : Int
  positionOrder : Option Int
  points : ℚ
  laps : Int
  statusId : Int
deriving DecidableEq, Repr

/-- IEEE/numpy `round` is round-half-to-even; on exact rationals that is:
floor, with ties going to the even integer. -/
def roundHalfEven (q : ℚ) : Int :=
  let n : Int := ⌊q⌋
  let frac : ℚ := q - n
  if frac < 1 / 2 then n
  else if 1 / 2 < frac then n + 1
  else if n % 2 = 0 then n else n + 1

/-- pandas `Series.round(3)`: round half to even at the third decimal. -/
def round3 (q : ℚ) : ℚ := (roundHalfEven (q * 1000) : ℚ) / 1000

/-- A race row of `races_cleaned.csv` after `fill_races_distance_km` (only the
columns the claim concerns; the remaining cells pass through unchanged and are
omitted). -/
structure RaceDistRow where
  raceId : Int
  circuitId : Int
  race_distance_km : Option ℚ
deriving DecidableEq, Repr

/-- `finished.groupby("raceId")["laps"].max()` looked up at one race
(data_enrichment.py:228-229): the maximum `laps` among the race's results with
`statusId == 1`, `none` when the race has no such result (a left merge against
the group-by then yields `NaN`). -/
def laps_by_race (results : List ResultRow) (rid : Int) : Option Int :=
  (((results.filter fun r => r.statusId == 1).filter fun r =>
      r.raceId == rid).map fun r => r.laps).max?

/-- The left merge of `races_df` with `circuits_df[["circuitId", "length_km"]]`
(data_enrichment.py:232) looked up at one race's `circuitId`: the matching
circuit's `length_km`, `none` when there is no matching circuit or its
`length_km` is `NaN`.  Faithful to pandas when `circuitId` is unique in
`circuits_cleaned.csv` (a repeated key would duplicate merge rows). -/
def circuit_length (circuits : List EnrichedCircuitRow) (cid : Int) : Option ℚ :=
  (circuits.find? fun c => c.circuitId == cid).bind fun c => c.length_km

/-- `fill_races_distance_km` (data_enrichment.py:202-260): read the three
cleaned files (a failed read of any is caught: `None`, no write); for each
race multiply the circuit's `length_km` by the maximum finished lap count,
round to 3 decimals (`NaN` propagates: missing length or laps give `NaN`),
and write `races_cleaned.csv`.  The post-write check (lines 243-252) re-reads
the file and returns `None` — after the write — when the `race_distance_km`
column is entirely `NA` (on zero rows pandas' `.all()` is vacuously true, so
that also returns `None`); otherwise the file's path is returned. -/
def fill_races_distance_km (races_read : Option (List RaceRow))
    (circuits_read : Option (List EnrichedCircuitRow))
    (results_read : Option (List ResultRow)) :
    Option String × Option (List RaceDistRow) :=
  match races_read, circuits_read, results_read with
  | some races, some circuits, some results =>
      let out := races.map fun r =>
        { raceId := r.raceId, circuitId := r.circuitId,
          race_distance_km :=
            match circuit_length circuits r.circuitId,
                laps_by_race results r.raceId with
            | some L, some laps => some (round3 (L * (laps : ℚ)))
            | _, _ => none : RaceDistRow }
      (if out.all (fun orow => orow.race_distance_km.isNone) then none
       else some "races_cleaned.csv",
       some out)
  | _, _, _ => (none, none)

theorem beq_eq_decide_eq {α : Type} [DecidableEq α] (a b : α) :
    (a == b) = decide (a = b) := by
  by_cases h : a = b <;> simp [h]

theorem laps_by_race_eq_spec (results : List ResultRow) (rid : Int) :
    laps_by_race results rid =
      ((results.filter fun r => decide (r.raceId = rid ∧ r.statusId = 1)).map
        fun r => r.laps).max? := by
  rw [laps_by_race, List.filter_filter]
  congr 2
  apply List.filter_congr
  intro r _
  by_cases h1 : r.raceId = rid <;> by_cases h2 : r.statusId = 1 <;>
    simp [h1, h2]

theorem find?_of_key_nodup (circuits : List EnrichedCircuitRow)
    (hnd : (circuits.map fun c => c.circuitId).Nodup) (c : EnrichedCircuitRow)
    (hc : c ∈ circuits) :
    circuits.find? (fun x => x.circuitId == c.circuitId) = some c := by
  induction circuits with
  | nil => cases hc
  | cons a l ih =>
    rw [List.map_cons, List.nodup_cons] at hnd
    rcases List.mem_cons.mp hc with rfl | htl
    · have hb : (c.circuitId == c.circuitId) = true := by simp
      simp [List.find?_cons, hb]
    · have hb : (a.circuitId == c.circuitId) = false := by
        simp only [beq_eq_false_iff_ne, ne_eq]
        intro he
        exact hnd.1 (he ▸ List.mem_map_of_mem (fun x => x.circuitId) htl)
      simp only [List.find?_cons, hb]
      exact ih hnd.2 htl

theorem allNA_return_none (out : List RaceDistRow) :
    ((if out.all (fun orow => orow.race_distance_km.isNone) then none
        else some "races_cleaned.csv" : Option String) =
      some "races_cleaned.csv" ↔ ∃ orow ∈ out, orow.race_distance_km ≠ none) ∧
    ((if out.all (fun orow => orow.race_distance_km.isNone) then none
        else some "races_cleaned.csv" : Option String) = none ↔
      ∀ orow ∈ out, orow.race_distance_km = none) := by
  cases h : out.all (fun orow => orow.race_distance_km.isNone)
  · have hex : ∃ orow ∈ out, orow.race_distance_km ≠ none := by
      have hna : ¬∀ x ∈ out, x.race_distance_km.isNone = true := by
        intro hall
        rw [List.all_eq_true.mpr hall] at h
        cases h
      push_neg at hna
      obtain ⟨x, hx, hxf⟩ := hna
      exact ⟨x, hx, fun hn => hxf (by simp [hn])⟩
    rw [if_neg (by simp [h])]
    refine ⟨iff_of_true rfl hex, iff_of_false (by simp) ?_⟩
    intro hall
    obtain ⟨x, hx, hne⟩ := hex
    exact hne (hall x hx)
  · have hall : ∀ orow ∈ out, orow.race_distance_km = none := by
      intro x hx
      have hx2 := List.all_eq_true.mp h x hx
      simpa using hx2
    rw [if_pos rfl]
    refine ⟨iff_of_false (by simp) ?_, iff_of_true rfl hall⟩
    rintro ⟨x, hx, hne⟩
    exact hne (hall x hx)

/-- C3: `fill_races_distance_km` writes, for every race row of
`races_cleaned` (positionally, keeping `raceId` and `circuitId`), a
`race_distance_km` equal to the circuit's `length_km` times the maximum
`laps` among the race's results with `statusId = 1`, rounded half-even to 3
decimals; when no result of the race has `statusId = 1`, or every matching
circuit row has `length_km` missing, the distance is `NA`.  The path is
returned exactly when some distance was filled; when the column is entirely
`NA` the function returns `None` although the table was written
(data_enrichment.py:250-252).  Circuit ids are assumed unique in
`circuits_cleaned` (pandas' left merge would otherwise duplicate rows). -/
theorem fill_races_distance_km_correct (races : List RaceRow)
    (circuits : List EnrichedCircuitRow) (results : List ResultRow)
    (hnd : (circuits.map fun c => c.circuitId).Nodup) :
    ∃ out, (fill_races_distance_km (some races) (some circuits)
        (some results)).2 = some out ∧
      out.length = races.length ∧
      ((fill_races_distance_km (some races) (some circuits) (some results)).1 =
        some "races_cleaned.csv" ↔ ∃ orow ∈ out, orow.race_distance_km ≠ none) ∧
      ((fill_races_distance_km (some races) (some circuits) (some results)).1 =
        none ↔ ∀ orow ∈ out, orow.race_distance_km = none) ∧
      ∀ i race orow, races.get? i = some race → out.get? i = some orow →
        orow.raceId = race.raceId ∧ orow.circuitId = race.circuitId ∧
        (∀ c ∈ circuits, c.circuitId = race.circuitId →
          ∀ L, c.length_km = some L →
          ∀ m, ((results.filter fun r =>
              decide (r.raceId = race.raceId ∧ r.statusId = 1)).map
                fun r => r.laps).max? = some m →
            orow.race_distance_km = some (round3 (L * (m : ℚ)))) ∧
        (((results.filter fun r =>
            decide (r.raceId = race.raceId ∧ r.statusId = 1)).map
              fun r => r.laps).max? = none →
          orow.race_distance_km = none) ∧
        ((∀ c ∈ circuits, c.circuitId = race.circuitId →
            c.length_km = none) →
          orow.race_distance_km = none) := by
  refine ⟨_, rfl, List.length_map _ _, (allNA_return_none _).1,
    (allNA_return_none _).2, ?_⟩
  intro i race orow hrace horow
  rw [List.get?_map, hrace, Option.map_some'] at horow
  obtain rfl := Option.some_inj.mp horow
  refine ⟨rfl, rfl, ?_, ?_, ?_⟩
  · intro c hc hcid L hL m hm
    have hfind := find?_of_key_nodup circuits hnd c hc
    rw [hcid] at hfind
    have hlen : circuit_length circuits race.circuitId = some L := by
      rw [circuit_length, hfind, Option.some_bind, hL]
    have hlaps : laps_by_race results race.raceId = some m := by
      rw [laps_by_race_eq_spec]; exact hm
    simp only [hlen, hlaps]
  · intro hm
    have hlaps : laps_by_race results race.raceId = none := by
      rw [laps_by_race_eq_spec]; exact hm
    simp only [hlaps]
    cases circuit_length circuits race.circuitId <;> rfl
  · intro hall
    have hlen : circuit_length circuits race.circuitId = none := by
      rw [circuit_length]
      cases hfind : circuits.find? fun x => x.circuitId == race.circuitId with
      | none => rfl
      | some c =>
          have hc := List.mem_of_find?_eq_some hfind
          have hp := List.find?_some hfind
          rw [Option.some_bind]
          exact hall c hc (beq_iff_eq.mp hp)
    simp only [hlen]

/-- Witness for C3: one race on circuit 2 whose circuit row has `length_km`
missing and with no finished result, so the distance column stays `NA` (and
the all-`NA` check then makes the function return `None` after writing). -/
theorem fill_races_distance_km_correct_witness :
    ∃ out, (fill_races_distance_km (some [⟨100, 2020, 2, []⟩])
        (some [⟨2, [], none, none, none⟩]) (some [])).2 = some out ∧
      out.length = [(⟨100, 2020, 2, []⟩ : RaceRow)].length ∧
      ((fill_races_distance_km (some [⟨100, 2020, 2, []⟩])
          (some [⟨2, [], none, none, none⟩]) (some [])).1 =
        some "races_cleaned.csv" ↔
        ∃ orow ∈ out, orow.race_distance_km ≠ none) ∧
      ((fill_races_distance_km (some [⟨100, 2020, 2, []⟩])
          (some [⟨2, [], none, none, none⟩]) (some [])).1 = none ↔
        ∀ orow ∈ out, orow.race_distance_km = none) ∧
      ∀ i race orow, [(⟨100, 2020, 2, []⟩ : RaceRow)].get? i = some race →
        out.get? i = some orow →
        orow.raceId = race.raceId ∧ orow.circuitId = race.circuitId ∧
        (∀ c ∈ [(⟨2, [], none, none, none⟩ : EnrichedCircuitRow)],
          c.circuitId = race.circuitId →
          ∀ L, c.length_km = some L →
          ∀ m, ((([] : List ResultRow).filter fun r =>
              decide (r.raceId = race.raceId ∧ r.statusId = 1)).map
                fun r => r.laps).max? = some m →
            orow.race_distance_km = some (round3 (L * (m : ℚ)))) ∧
        (((([] : List ResultRow).filter fun r =>
            decide (r.raceId = race.raceId ∧ r.statusId = 1)).map
              fun r => r.laps).max? = none →
          orow.race_distance_km = none) ∧
        ((∀ c ∈ [(⟨2, [], none, none, none⟩ : EnrichedCircuitRow)],
            c.circuitId = race.circuitId → c.length_km = none) →
          orow.race_distance_km = none) :=
  fill_races_distance_km_correct [⟨100, 2020, 2, []⟩]
    [⟨2, [], none, none, none⟩] [] (by decide)

/-! ## `features.build_constructors_performance` (C4) -/

/-- A constructor row of `constructors_cleaned.csv`. -/
structure ConstructorRow where
  constructorId : Int
  name : String
deriving DecidableEq, Repr

/-- Insert into a sorted list (pandas `groupby` sorts its group keys). -/
def insertSorted (a : Int) : List Int → List Int
  | [] => [a]
  | b :: bs => if a ≤ b then a :: b :: bs else b :: insertSorted a bs

/-- Ascending sort of the group keys, as pandas `groupby` orders its output. -/
def sortInts (l : List Int) : List Int := l.foldr insertSorted []

theorem insertSorted_perm (a : Int) (l : List Int) :
    (insertSorted a l).Perm (a :: l) := by
  induction l with
  | nil => exact List.Perm.refl _
  | cons b bs ih =>
    rw [insertSorted]
    split
    · exact List.Perm.refl _
    · exact ((ih.cons b).trans (List.Perm.swap a b bs)).symm.symm

theorem sortInts_perm (l : List Int) : (sortInts l).Perm l := by
  induction l with
  | nil => exact List.Perm.refl _
  | cons a as ih => exact (insertSorted_perm a (sortInts as)).trans (ih.cons a)

/-- A row of `constructors_performance.csv`.  Only the columns the claim
concerns are embedded (`finish_rate`, `podiums`, `top10_finishes` and the
mean/median columns are further derived values the claim does not mention);
`name` is the left merge with `constructors_cleaned.csv`, modelled as a first
match lookup (exact for a key-unique dimension table). -/
structure ConstructorPerfRow where
  constructorId : Int
  name : Option String
  races_count : Nat
  finished_races : Nat
  win_count : Nat
  total_points : ℚ
deriving DecidableEq, Repr

/-- `build_constructors_performance` (features.py:133-246): read the two
cleaned files (a failed read is caught: `None`, no write); group the result
rows by `constructorId` and emit one row per group key — `races_count` is
`raceId.nunique()`, `finished_races` counts `statusId == 1 &
positionOrder.notna()`, `win_count` counts `positionOrder == 1` (a `NaN`
compares unequal), `total_points` sums `points` — then left-merge the
constructor's `name`, write `constructors_performance.csv` and return that
path. -/
def build_constructors_performance (results_read : Option (List ResultRow))
    (constructors_read : Option (List ConstructorRow)) :
    Option String × Option (List ConstructorPerfRow) :=
  match results_read, constructors_read with
  | some results, some constructors =>
      let keys := sortInts ((results.map fun r => r.constructorId).dedup)
      (some "constructors_performance.csv", some (keys.map fun cid =>
        let g := results.filter fun r => r.constructorId == cid
        { constructorId := cid,
          name := (constructors.find? fun c => c.constructorId == cid).map
            fun c => c.name,
          races_count := (g.map fun r => r.raceId).dedup.length,
          finished_races := g.countP fun r =>
            r.statusId == 1 && r.positionOrder.isSome,
          win_count := g.countP fun r => r.positionOrder == some 1,
          total_points := (g.map fun r => r.points).sum }))
  | _, _ => (none, none)

/-- C4: `build_constructors_performance` produces exactly one output row per
distinct `constructorId` of `results_cleaned`; per constructor, `races_count`
is the number of distinct `raceId`s among its result rows, `total_points` the
sum of its `points`, `win_count` the number of its rows with `positionOrder`
equal to 1, and `finished_races` the number of its rows with `statusId = 1`
and `positionOrder` present. -/
theorem build_constructors_performance_correct (results : List ResultRow)
    (constructors : List ConstructorRow) :
    (build_constructors_performance (some results) (some constructors)).1 =
      some "constructors_performance.csv" ∧
    ∃ out, (build_constructors_performance (some results)
        (some constructors)).2 = some out ∧
      (out.map fun p => p.constructorId).Nodup ∧
      (∀ cid, cid ∈ out.map (fun p => p.constructorId) ↔
        cid ∈ results.map fun r => r.constructorId) ∧
      ∀ p ∈ out,
        p.races_count = ((results.filter fun r =>
          decide (r.constructorId = p.constructorId)).map
            fun r => r.raceId).dedup.length ∧
        p.total_points = ((results.filter fun r =>
          decide (r.constructorId = p.constructorId)).map
            fun r => r.points).sum ∧
        p.win_count = (results.filter fun r =>
          decide (r.constructorId = p.constructorId)).countP
            (fun r => r.positionOrder == some 1) ∧
        p.finished_races = (results.filter fun r =>
          decide (r.constructorId = p.constructorId)).countP
            (fun r => decide (r.statusId = 1 ∧ r.positionOrder ≠ none)) := by
  have hmap : ∀ keys : List Int, (keys.map fun cid =>
      (⟨cid, (constructors.find? fun c => c.constructorId == cid).map
          (fun c => c.name),
        ((results.filter fun r => r.constructorId == cid).map
          fun r => r.raceId).dedup.length,
        (results.filter fun r => r.constructorId == cid).countP
          (fun r => r.statusId == 1 && r.positionOrder.isSome),
        (results.filter fun r => r.constructorId == cid).countP
          (fun r => r.positionOrder == some 1),
        ((results.filter fun r => r.constructorId == cid).map
          fun r => r.points).sum⟩ : ConstructorPerfRow)).map
            (fun p => p.constructorId) = keys := by
    intro keys
    induction keys with
    | nil => rfl
    | cons a l ih => rw [List.map_cons, List.map_cons, ih]
  refine ⟨rfl, _, rfl, ?_, ?_, ?_⟩
  · rw [hmap]
    exact ((sortInts_perm _).nodup_iff).mpr (List.nodup_dedup _)
  · intro cid
    rw [hmap]
    rw [(sortInts_perm _).mem_iff, List.mem_dedup]
  · intro p hp
    obtain ⟨cid, -, rfl⟩ := List.mem_map.mp hp
    have hfilter : (results.filter fun r => r.constructorId == cid) =
        results.filter fun r => decide (r.constructorId = cid) := by
      apply List.filter_congr
      intro r _
      exact beq_eq_decide_eq _ _
    refine ⟨?_, ?_, ?_, ?_⟩
    · simp only [hfilter]
    · simp only [hfilter]
    · simp only [hfilter]
    · simp only [hfilter]
      apply List.countP_congr
      intro r _
      constructor
      · intro h
        have h' := Bool.and_eq_true_iff.mp h
        exact decide_eq_true ⟨beq_iff_eq.mp h'.1,
          Option.isSome_iff_ne_none.mp h'.2⟩
      · intro h
        have h' := of_decide_eq_true h
        exact Bool.and_eq_true_iff.mpr ⟨beq_iff_eq.mpr h'.1,
          Option.isSome_iff_ne_none.mpr h'.2⟩

/-! ## `main.main` — the pipeline's control flow (C5)

`main.py:49-213` invokes the stages in a fixed textual order.  The trace
model records which stage calls are reached: each stage's runtime outcome is
an environment flag (`true` = the call returned a non-`None` value; for
`csvFilesFound`, that `data/raw` holds at least one CSV after the download).
`main` checks the returned value against `None` only after the step-6 and
step-7 calls (and checks the CSV listing after step 1); the returned values
of the step-4/step-5 filtering calls are discarded or, for
`filter_races_by_year`, passed straight to `pd.read_csv`, which raises on
`None` — either way the filter results never trigger main's `return`
statements.  (As written, `main.py` would in fact fail at import time:
it imports `filter_drivers_by_results` and `build_driver_race_base`, which
no module defines; the model captures the body's intended control flow.) -/

/-- The stage calls of `main.py`, in textual order. -/
inductive Stage where
  | download_dataset
  | create_processed_folder
  | filter_races_by_year
  | filter_constructor_results
  | filter_constructor_standings
  | filter_driver_standings
  | filter_lap_times
  | filter_pit_stops
  | filter_qualifying
  | filter_results
  | filter_sprint_results
  | filter_circuits_by_races
  | filter_constructors_by_results
  | filter_drivers_by_results
  | filter_seasons_by_year
  | filter_status_by_results
  | add_extra_info_on_circuits
  | fill_circuit_extra_info
  | add_extra_info_on_races
  | fill_races_distance_km
  | add_status_dnf_categories
  | build_driver_race_base
  | build_drivers_performance
  | build_constructors_performance
  | build_sprint_performance
  | build_qualifying_performance
  | build_driver_circuits_performance
deriving DecidableEq, Repr

/-- One run's outcomes: `true` = the stage's call returned non-`None`
(for `csvFilesFound`: the raw CSV listing was non-empty). -/
structure PipelineEnv where
  csvFilesFound : Bool
  racesByYearOk : Bool
  filterConstructorResultsOk : Bool
  filterConstructorStandingsOk : Bool
  filterDriverStandingsOk : Bool
  filterLapTimesOk : Bool
  filterPitStopsOk : Bool
  filterQualifyingOk : Bool
  filterResultsOk : Bool
  filterSprintResultsOk : Bool
  filterCircuitsOk : Bool
  filterConstructorsOk : Bool
  filterDriversOk : Bool
  filterSeasonsOk : Bool
  filterStatusOk : Bool
  addCircuitsOk : Bool
  fillCircuitOk : Bool
  addRacesOk : Bool
  fillRacesDistOk : Bool
  statusDnfOk : Bool
  driverRaceBaseOk : Bool
  driversPerfOk : Bool
  constructorsPerfOk : Bool
  sprintPerfOk : Bool
  qualiPerfOk : Bool
  driverCircuitsPerfOk : Bool
deriving DecidableEq, Repr

/-- The stage calls `main` (main.py:49-213) reaches, in order.  Steps 4.3 and
5 run unconditionally once the race ids are loaded — their `None` results are
never tested; a `None` from `filter_races_by_year` stops the run at
`pd.read_csv(None)` (an uncaught exception, not a `return`); each step-6/7
result is tested against `None` with an early `return`. -/
def mainTrace (env : PipelineEnv) : List Stage :=
  Stage.download_dataset ::
  (if env.csvFilesFound then
    Stage.create_processed_folder :: Stage.filter_races_by_year ::
    (if env.racesByYearOk then
      Stage.filter_constructor_results :: Stage.filter_constructor_standings ::
      Stage.filter_driver_standings :: Stage.filter_lap_times ::
      Stage.filter_pit_stops :: Stage.filter_qualifying ::
      Stage.filter_results :: Stage.filter_sprint_results ::
      Stage.filter_circuits_by_races :: Stage.filter_constructors_by_results ::
      Stage.filter_drivers_by_results :: Stage.filter_seasons_by_year ::
      Stage.filter_status_by_results ::
      Stage.add_extra_info_on_circuits ::
      (if env.addCircuitsOk then
        Stage.fill_circuit_extra_info ::
        (if env.fillCircuitOk then
          Stage.add_extra_info_on_races ::
          (if env.addRacesOk then
            Stage.fill_races_distance_km ::
            (if env.fillRacesDistOk then
              Stage.add_status_dnf_categories ::
              (if env.statusDnfOk then
                Stage.build_driver_race_base ::
                (if env.driverRaceBaseOk then
                  Stage.build_drivers_performance ::
                  (if env.driversPerfOk then
                    Stage.build_constructors_performance ::
                    (if env.constructorsPerfOk then
                      Stage.build_sprint_performance ::
                      (if env.sprintPerfOk then
                        Stage.build_qualifying_performance ::
                        (if env.qualiPerfOk then
                          [Stage.build_driver_circuits_performance]
                        else [])
                      else [])
                    else [])
                  else [])
                else [])
              else [])
            else [])
          else [])
        else [])
      else [])
    else [])
  else [])

/-- The environment of a run in which every stage succeeds except
`filter_table_by_race_ids` for the results table, which returns `None`. -/
def envResultsFiltFails : PipelineEnv :=
  { csvFilesFound := true, racesByYearOk := true,
    filterConstructorResultsOk := true, filterConstructorStandingsOk := true,
    filterDriverStandingsOk := true, filterLapTimesOk := true,
    filterPitStopsOk := true, filterQualifyingOk := true,
    filterResultsOk := false, filterSprintResultsOk := true,
    filterCircuitsOk := true, filterConstructorsOk := true,
    filterDriversOk := true, filterSeasonsOk := true, filterStatusOk := true,
    addCircuitsOk := true, fillCircuitOk := true, addRacesOk := true,
    fillRacesDistOk := true, statusDnfOk := true, driverRaceBaseOk := true,
    driversPerfOk := true, constructorsPerfOk := true, sprintPerfOk := true,
    qualiPerfOk := true, driverCircuitsPerfOk := true }

/-- Counterexample to C5: in a run where the step-4.3 filtering of
`results.csv` signals failure by returning `None`, `main` does not return —
every later stage, through the final feature build, is still invoked. -/
theorem main_does_not_stop_on_filter_failure :
    envResultsFiltFails.filterResultsOk = false ∧
    Stage.add_status_dnf_categories ∈ mainTrace envResultsFiltFails ∧
    Stage.build_constructors_performance ∈ mainTrace envResultsFiltFails ∧
    Stage.build_driver_circuits_performance ∈ mainTrace envResultsFiltFails := by
  decide

/-- A chain of stage calls each followed by an `is None` check: the stage is
invoked, and a `false` flag makes `main` return before the rest; `t` is the
chain's unchecked tail. -/
def gatedChainT {α : Type} (t : List α) : List (α × Bool) → List α
  | [] => t
  | (s, b) :: rest => s :: (if b then gatedChainT t rest else [])

theorem gatedChainT_front {α : Type} (t : List α) (l : List (α × Bool)) :
    gatedChainT t l <+: (l.map Prod.fst ++ t) := by
  induction l with
  | nil => exact List.prefix_refl t
  | cons p rest ih =>
    obtain ⟨s, b⟩ := p
    rw [gatedChainT, List.map_cons, List.cons_append]
    refine List.cons_prefix_cons.mpr ⟨rfl, ?_⟩
    cases b
    · exact List.nil_prefix
    · exact ih

theorem gatedChainT_not_mem {α : Type} (t : List α) (x s : α)
    (l₁ l₂ : List (α × Bool)) (h₁ : x ∉ l₁.map Prod.fst) (h₂ : x ≠ s) :
    x ∉ gatedChainT t (l₁ ++ (s, false) :: l₂) := by
  induction l₁ with
  | nil =>
    rw [List.nil_append, gatedChainT, if_neg (by simp)]
    intro hmem
    rcases List.mem_cons.mp hmem with rfl | hmem2
    · exact h₂ rfl
    · cases hmem2
  | cons p rest ih =>
    obtain ⟨a, b⟩ := p
    rw [List.map_cons, List.mem_cons] at h₁
    push_neg at h₁
    rw [List.cons_append, gatedChainT]
    intro hmem
    rcases List.mem_cons.mp hmem with rfl | hmem2
    · exact h₁.1 rfl
    · cases b
      · simp at hmem2
      · exact ih h₁.2 hmem2

/-- The thirteen step-4.3/step-5 filtering calls, whose returned values
`main` never tests. -/
def preFilterStages : List Stage :=
  [Stage.filter_constructor_results, Stage.filter_constructor_standings,
   Stage.filter_driver_standings, Stage.filter_lap_times,
   Stage.filter_pit_stops, Stage.filter_qualifying,
   Stage.filter_results, Stage.filter_sprint_results,
   Stage.filter_circuits_by_races, Stage.filter_constructors_by_results,
   Stage.filter_drivers_by_results, Stage.filter_seasons_by_year,
   Stage.filter_status_by_results]

/-- The step-6/7 calls, each paired with the flag `main` tests right after. -/
def gatedPairs (env : PipelineEnv) : List (Stage × Bool) :=
  [(Stage.add_extra_info_on_circuits, env.addCircuitsOk),
   (Stage.fill_circuit_extra_info, env.fillCircuitOk),
   (Stage.add_extra_info_on_races, env.addRacesOk),
   (Stage.fill_races_distance_km, env.fillRacesDistOk),
   (Stage.add_status_dnf_categories, env.statusDnfOk),
   (Stage.build_driver_race_base, env.driverRaceBaseOk),
   (Stage.build_drivers_performance, env.driversPerfOk),
   (Stage.build_constructors_performance, env.constructorsPerfOk),
   (Stage.build_sprint_performance, env.sprintPerfOk),
   (Stage.build_qualifying_performance, env.qualiPerfOk)]

theorem mainTrace_eq_chain (env : PipelineEnv) :
    mainTrace env = Stage.download_dataset ::
      (if env.csvFilesFound then
        Stage.create_processed_folder :: Stage.filter_races_by_year ::
        (if env.racesByYearOk then
          preFilterStages ++
            gatedChainT [Stage.build_driver_circuits_performance]
              (gatedPairs env)
        else [])
      else []) := rfl

/-- The stage order of `main.py`'s body, top to bottom. -/
def pipelineOrder : List Stage :=
  [Stage.download_dataset, Stage.create_processed_folder,
   Stage.filter_races_by_year,
   Stage.filter_constructor_results, Stage.filter_constructor_standings,
   Stage.filter_driver_standings, Stage.filter_lap_times,
   Stage.filter_pit_stops, Stage.filter_qualifying,
   Stage.filter_results, Stage.filter_sprint_results,
   Stage.filter_circuits_by_races, Stage.filter_constructors_by_results,
   Stage.filter_drivers_by_results, Stage.filter_seasons_by_year,
   Stage.filter_status_by_results,
   Stage.add_extra_info_on_circuits, Stage.fill_circuit_extra_info,
   Stage.add_extra_info_on_races, Stage.fill_races_distance_km,
   Stage.add_status_dnf_categories,
   Stage.build_driver_race_base, Stage.build_drivers_performance,
   Stage.build_constructors_performance, Stage.build_sprint_performance,
   Stage.build_qualifying_performance,
   Stage.build_driver_circuits_performance]

/-- A stage that sits after a failed (`false`) gate, and is none of the
stages before that gate, is absent from the run's trace. -/
theorem trace_not_mem_gated (env : PipelineEnv) (x s : Stage)
    (l₁ l₂ : List (Stage × Bool)) (hsplit : gatedPairs env = l₁ ++ (s, false) :: l₂)
    (hx1 : x ∉ l₁.map Prod.fst) (hx2 : x ≠ s) (hx3 : x ∉ preFilterStages)
    (hx4 : x ≠ Stage.download_dataset) (hx5 : x ≠ Stage.create_processed_folder)
    (hx6 : x ≠ Stage.filter_races_by_year) :
    x ∉ mainTrace env := by
  rw [mainTrace_eq_chain]
  intro hmem
  rcases List.mem_cons.mp hmem with rfl | hmem
  · exact hx4 rfl
  · split at hmem
    · rcases List.mem_cons.mp hmem with rfl | hmem
      · exact hx5 rfl
      · rcases List.mem_cons.mp hmem with rfl | hmem
        · exact hx6 rfl
        · split at hmem
          · rcases List.mem_append.mp hmem with hmem | hmem
            · exact hx3 hmem
            · rw [hsplit] at hmem
              exact gatedChainT_not_mem _ x s l₁ l₂ hx1 hx2 hmem
          · cases hmem
    · cases hmem

/-- C5 (amended): the stages are invoked sequentially in the fixed order —
every trace is a prefix of the pipeline order — and the early `return` on a
`None` result applies to the step-6 enrichment and step-7 feature stages
(and to the empty-CSV check after the download), while a `None` returned by
the step-4/step-5 filtering stages never makes `main` return (the trace does
not depend on those flags at all). -/
theorem main_trace_order_and_gating (env : PipelineEnv) :
    mainTrace env <+: pipelineOrder ∧
    (env.csvFilesFound = false →
      Stage.create_processed_folder ∉ mainTrace env) ∧
    (env.addCircuitsOk = false → Stage.fill_circuit_extra_info ∉ mainTrace env) ∧
    (env.fillCircuitOk = false → Stage.add_extra_info_on_races ∉ mainTrace env) ∧
    (env.addRacesOk = false → Stage.fill_races_distance_km ∉ mainTrace env) ∧
    (env.fillRacesDistOk = false →
      Stage.add_status_dnf_categories ∉ mainTrace env) ∧
    (env.statusDnfOk = false → Stage.build_driver_race_base ∉ mainTrace env) ∧
    (env.driverRaceBaseOk = false →
      Stage.build_drivers_performance ∉ mainTrace env) ∧
    (env.driversPerfOk = false →
      Stage.build_constructors_performance ∉ mainTrace env) ∧
    (env.constructorsPerfOk = false →
      Stage.build_sprint_performance ∉ mainTrace env) ∧
    (env.sprintPerfOk = false →
      Stage.build_qualifying_performance ∉ mainTrace env) ∧
    (env.qualiPerfOk = false →
      Stage.build_driver_circuits_performance ∉ mainTrace env) ∧
    (mainTrace env =
      mainTrace { env with
        filterConstructorResultsOk := true
        filterConstructorStandingsOk := true
        filterDriverStandingsOk := true
        filterLapTimesOk := true
        filterPitStopsOk := true
        filterQualifyingOk := true
        filterResultsOk := true
        filterSprintResultsOk := true
        filterCircuitsOk := true
        filterConstructorsOk := true
        filterDriversOk := true
        filterSeasonsOk := true
        filterStatusOk := true }) := by
  refine ⟨?_, ?_, ?_, ?_, ?_, ?_, ?_, ?_, ?_, ?_, ?_, ?_, rfl⟩
  · rw [mainTrace_eq_chain,
      show pipelineOrder = Stage.download_dataset ::
        Stage.create_processed_folder :: Stage.filter_races_by_year ::
        (preFilterStages ++ ((gatedPairs env).map Prod.fst ++
          [Stage.build_driver_circuits_performance])) from rfl]
    refine List.cons_prefix_cons.mpr ⟨rfl, ?_⟩
    split
    · refine List.cons_prefix_cons.mpr ⟨rfl,
        List.cons_prefix_cons.mpr ⟨rfl, ?_⟩⟩
      split
      · exact (List.prefix_append_right_inj preFilterStages).mpr
          (gatedChainT_front _ _)
      · exact List.nil_prefix
    · exact List.nil_prefix
  · intro h
    rw [mainTrace_eq_chain, h, if_neg (by simp)]
    decide
  · intro h
    refine trace_not_mem_gated env _ Stage.add_extra_info_on_circuits
      []
      [(Stage.fill_circuit_extra_info, env.fillCircuitOk),
       (Stage.add_extra_info_on_races, env.addRacesOk),
       (Stage.fill_races_distance_km, env.fillRacesDistOk),
       (Stage.add_status_dnf_categories, env.statusDnfOk),
       (Stage.build_driver_race_base, env.driverRaceBaseOk),
       (Stage.build_drivers_performance, env.driversPerfOk),
       (Stage.build_constructors_performance, env.constructorsPerfOk),
       (Stage.build_sprint_performance, env.sprintPerfOk),
       (Stage.build_qualifying_performance, env.qualiPerfOk)] ?_ ?_ ?_ ?_ ?_ ?_ ?_
    · simp only [gatedPairs, h]
      rfl
    all_goals first
      | decide
      | (simp only [List.map_cons, List.map_nil]; decide)
  · intro h
    refine trace_not_mem_gated env _ Stage.fill_circuit_extra_info
      [(Stage.add_extra_info_on_circuits, env.addCircuitsOk)]
      [(Stage.add_extra_info_on_races, env.addRacesOk),
       (Stage.fill_races_distance_km, env.fillRacesDistOk),
       (Stage.add_status_dnf_categories, env.statusDnfOk),
       (Stage.build_driver_race_base, env.driverRaceBaseOk),
       (Stage.build_drivers_performance, env.driversPerfOk),
       (Stage.build_constructors_performance, env.constructorsPerfOk),
       (Stage.build_sprint_performance, env.sprintPerfOk),
       (Stage.build_qualifying_performance, env.qualiPerfOk)] ?_ ?_ ?_ ?_ ?_ ?_ ?_
    · simp only [gatedPairs, h]
      rfl
    all_goals first
      | decide
      | (simp only [List.map_cons, List.map_nil]; decide)
  · intro h
    refine trace_not_mem_gated env _ Stage.add_extra_info_on_races
      [(Stage.add_extra_info_on_circuits, env.addCircuitsOk),
       (Stage.fill_circuit_extra_info, env.fillCircuitOk)]
      [(Stage.fill_races_distance_km, env.fillRacesDistOk),
       (Stage.add_status_dnf_categories, env.statusDnfOk),
       (Stage.build_driver_race_base, env.driverRaceBaseOk),
       (Stage.build_drivers_performance, env.driversPerfOk),
       (Stage.build_constructors_performance, env.constructorsPerfOk),
       (Stage.build_sprint_performance, env.sprintPerfOk),
       (Stage.build_qualifying_performance, env.qualiPerfOk)] ?_ ?_ ?_ ?_ ?_ ?_ ?_
    · simp only [gatedPairs, h]
      rfl
    all_goals first
      | decide
      | (simp only [List.map_cons, List.map_nil]; decide)
  · intro h
    refine trace_not_mem_gated env _ Stage.fill_races_distance_km
      [(Stage.add_extra_info_on_circuits, env.addCircuitsOk),
       (Stage.fill_circuit_extra_info, env.fillCircuitOk),
       (Stage.add_extra_info_on_races, env.addRacesOk)]
      [(Stage.add_status_dnf_categories, env.statusDnfOk),
       (Stage.build_driver_race_base, env.driverRaceBaseOk),
       (Stage.build_drivers_performance, env.driversPerfOk),
       (Stage.build_constructors_performance, env.constructorsPerfOk),
       (Stage.build_sprint_performance, env.sprintPerfOk),
       (Stage.build_qualifying_performance, env.qualiPerfOk)] ?_ ?_ ?_ ?_ ?_ ?_ ?_
    · simp only [gatedPairs, h]
      rfl
    all_goals first
      | decide
      | (simp only [List.map_cons, List.map_nil]; decide)
  · intro h
    refine trace_not_mem_gated env _ Stage.add_status_dnf_categories
      [(Stage.add_extra_info_on_circuits, env.addCircuitsOk),
       (Stage.fill_circuit_extra_info, env.fillCircuitOk),
       (Stage.add_extra_info_on_races, env.addRacesOk),
       (Stage.fill_races_distance_km, env.fillRacesDistOk)]
      [(Stage.build_driver_race_base, env.driverRaceBaseOk),
       (Stage.build_drivers_performance, env.driversPerfOk),
       (Stage.build_constructors_performance, env.constructorsPerfOk),
       (Stage.build_sprint_performance, env.sprintPerfOk),
       (Stage.build_qualifying_performance, env.qualiPerfOk)] ?_ ?_ ?_ ?_ ?_ ?_ ?_
    · simp only [gatedPairs, h]
      rfl
    all_goals first
      | decide
      | (simp only [List.map_cons, List.map_nil]; decide)
  · intro h
    refine trace_not_mem_gated env _ Stage.build_driver_race_base
      [(Stage.add_extra_info_on_circuits, env.addCircuitsOk),
       (Stage.fill_circuit_extra_info, env.fillCircuitOk),
       (Stage.add_extra_info_on_races, env.addRacesOk),
       (Stage.fill_races_distance_km, env.fillRacesDistOk),
       (Stage.add_status_dnf_categories, env.statusDnfOk)]
      [(Stage.build_drivers_performance, env.driversPerfOk),
       (Stage.build_constructors_performance, env.constructorsPerfOk),
       (Stage.build_sprint_performance, env.sprintPerfOk),
       (Stage.build_qualifying_performance, env.qualiPerfOk)] ?_ ?_ ?_ ?_ ?_ ?_ ?_
    · simp only [gatedPairs, h]
      rfl
    all_goals first
      | decide
      | (simp only [List.map_cons, List.map_nil]; decide)
  · intro h
    refine trace_not_mem_gated env _ Stage.build_drivers_performance
      [(Stage.add_extra_info_on_circuits, env.addCircuitsOk),
       (Stage.fill_circuit_extra_info, env.fillCircuitOk),
       (Stage.add_extra_info_on_races, env.addRacesOk),
       (Stage.fill_races_distance_km, env.fillRacesDistOk),
       (Stage.add_status_dnf_categories, env.statusDnfOk),
       (Stage.build_driver_race_base, env.driverRaceBaseOk)]
      [(Stage.build_constructors_performance, env.constructorsPerfOk),
       (Stage.build_sprint_performance, env.sprintPerfOk),
       (Stage.build_qualifying_performance, env.qualiPerfOk)] ?_ ?_ ?_ ?_ ?_ ?_ ?_
    · simp only [gatedPairs, h]
      rfl
    all_goals first
      | decide
      | (simp only [List.map_cons, List.map_nil]; decide)
  · intro h
    refine trace_not_mem_gated env _ Stage.build_constructors_performance
      [(Stage.add_extra_info_on_circuits, env.addCircuitsOk),
       (Stage.fill_circuit_extra_info, env.fillCircuitOk),
       (Stage.add_extra_info_on_races, env.addRacesOk),
       (Stage.fill_races_distance_km, env.fillRacesDistOk),
       (Stage.add_status_dnf_categories, env.statusDnfOk),
       (Stage.build_driver_race_base, env.driverRaceBaseOk),
       (Stage.build_drivers_performance, env.driversPerfOk)]
      [(Stage.build_sprint_performance, env.sprintPerfOk),
       (Stage.build_qualifying_performance, env.qualiPerfOk)] ?_ ?_ ?_ ?_ ?_ ?_ ?_
    · simp only [gatedPairs, h]
      rfl
    all_goals first
      | decide
      | (simp only [List.map_cons, List.map_nil]; decide)
  · intro h
    refine trace_not_mem_gated env _ Stage.build_sprint_performance
      [(Stage.add_extra_info_on_circuits, env.addCircuitsOk),
       (Stage.fill_circuit_extra_info, env.fillCircuitOk),
       (Stage.add_extra_info_on_races, env.addRacesOk),
       (Stage.fill_races_distance_km, env.fillRacesDistOk),
       (Stage.add_status_dnf_categories, env.statusDnfOk),
       (Stage.build_driver_race_base, env.driverRaceBaseOk),
       (Stage.build_drivers_performance, env.driversPerfOk),
       (Stage.build_constructors_performance, env.constructorsPerfOk)]
      [(Stage.build_qualifying_performance, env.qualiPerfOk)] ?_ ?_ ?_ ?_ ?_ ?_ ?_
    · simp only [gatedPairs, h]
      rfl
    all_goals first
      | decide
      | (simp only [List.map_cons, List.map_nil]; decide)
  · intro h
    refine trace_not_mem_gated env _ Stage.build_qualifying_performance
      [(Stage.add_extra_info_on_circuits, env.addCircuitsOk),
       (Stage.fill_circuit_extra_info, env.fillCircuitOk),
       (Stage.add_extra_info_on_races, env.addRacesOk),
       (Stage.fill_races_distance_km, env.fillRacesDistOk),
       (Stage.add_status_dnf_categories, env.statusDnfOk),
       (Stage.build_driver_race_base, env.driverRaceBaseOk),
       (Stage.build_drivers_performance, env.driversPerfOk),
       (Stage.build_constructors_performance, env.constructorsPerfOk),
       (Stage.build_sprint_performance, env.sprintPerfOk)]
      [] ?_ ?_ ?_ ?_ ?_ ?_ ?_
    · simp only [gatedPairs, h]
      rfl
    all_goals first
      | decide
      | (simp only [List.map_cons, List.map_nil]; decide)

/-! ## Error handling of the filtering and enrichment functions (C6)

The functions of `data_loader.py` and `data_enrichment.py` wrap their
`pd.read_csv` calls in `try/except`, print a diagnostic and `return None`
before any write.  The duplicated filtering functions of `data_cleaning.py`
read *outside* any `try` (e.g. data_cleaning.py:53), so a read exception
propagates to the caller instead of becoming a `None` return. -/

/-- `data_loader.filter_races_by_year` (data_loader.py:41-97): a failed read
of `races.csv` is caught (`None` return, no write); otherwise rows with
`year` between the bounds (inclusive) are written to `races_cleaned.csv`. -/
def filter_races_by_year (start_year end_year : Int)
    (raw : Option (List RaceRow)) : Option String × Option (List RaceRow) :=
  match raw with
  | none => (none, none)
  | some df =>
      (some "races_cleaned.csv",
       some (df.filter fun r => start_year ≤ r.year && r.year ≤ end_year))

/-- `data_cleaning.filter_races_by_year` (data_cleaning.py:34-87): the same
filter, but its `pd.read_csv` (line 53) sits outside any `try/except`, so a
read failure is a raised exception (`Except.error`), not a `None` return. -/
def dc_filter_races_by_year (start_year end_year : Int)
    (raw : Option (List RaceRow)) :
    Except String (Option String × Option (List RaceRow)) :=
  match raw with
  | none => Except.error "pd.read_csv raised"
  | some df =>
      Except.ok (some "races_cleaned.csv",
        some (df.filter fun r => start_year ≤ r.year && r.year ≤ end_year))

/-- Counterexample to C6: `data_cleaning.filter_races_by_year` is a filtering
function of the repository, and on a failing read it propagates the exception
instead of catching it and returning `None`. -/
theorem dc_filter_races_by_year_raises :
    dc_filter_races_by_year 2020 2025 none =
      Except.error "pd.read_csv raised" ∧
    ∀ o : Option String × Option (List RaceRow),
      dc_filter_races_by_year 2020 2025 none ≠ Except.ok o := by
  exact ⟨rfl, fun o h => by cases h⟩

/-- C6 (amended): every modelled filtering/enrichment function of
`data_loader.py` and `data_enrichment.py` reacts to a read exception by
catching it and returning `None` with no write performed (the output file is
untouched); the copy-pasted filtering functions of `data_cleaning.py`,
however, read outside `try/except` and let the exception propagate. -/
theorem read_error_returns_none_without_write (start_year end_year : Int)
    (table_name : String) (race_ids : List Int)
    (circuits_read : Option (List CircuitRow))
    (races_read : Option (List RaceRow))
    (circuits_read2 : Option (List EnrichedCircuitRow))
    (results_read : Option (List ResultRow))
    (constructors_read : Option (List ConstructorRow)) :
    filter_races_by_year start_year end_year none = (none, none) ∧
    filter_table_by_race_ids table_name race_ids none = (none, none) ∧
    dl_filter_circuits_by_races none circuits_read = (none, none) ∧
    dl_filter_circuits_by_races races_read none = (none, none) ∧
    fill_circuit_extra_info none = (none, none) ∧
    fill_races_distance_km none circuits_read2 results_read = (none, none) ∧
    fill_races_distance_km races_read none results_read = (none, none) ∧
    fill_races_distance_km races_read circuits_read2 none = (none, none) ∧
    add_status_dnf_categories none = (none, none) ∧
    build_constructors_performance none constructors_read = (none, none) ∧
    build_constructors_performance results_read none = (none, none) := by
  refine ⟨rfl, rfl, ?_, ?_, rfl, ?_, ?_, ?_, rfl, ?_, ?_⟩
  · cases circuits_read <;> rfl
  · cases races_read <;> rfl
  · cases circuits_read2 <;> cases results_read <;> rfl
  · cases races_read <;> cases results_read <;> rfl
  · cases races_read <;> cases circuits_read2 <;> rfl
  · cases constructors_read <;> rfl
  · cases results_read <;> rfl

/-! ## `downloading_dataset.download_dataset` (C10) -/

/-- The state `download_dataset` touches: the destination directory's entries
(`none`: `data/raw` does not exist yet) and what a Kaggle download would
deliver (`none`: `kagglehub.dataset_download` raises). -/
structure DownloadFS where
  destEntries : Option (List String)
  kaggleFiles : Option (List String)
deriving DecidableEq, Repr

/-- What one call to `download_dataset` did: the returned path, the state
after the call, and whether `kagglehub.dataset_download` was invoked. -/
structure DownloadResult where
  returnedPath : String
  fs : DownloadFS
  invokedKaggle : Bool
deriving DecidableEq, Repr

/-- `download_dataset` (downloading_dataset.py:10-54): `mkdir` the
destination (`exist_ok`), return it at once when it already holds an entry;
otherwise call the Kaggle download and `copytree` its files over (a download
failure is caught and the path still returned). -/
def download_dataset (fs : DownloadFS) : DownloadResult :=
  let entries := fs.destEntries.getD []
  let fs1 : DownloadFS := { fs with destEntries := some entries }
  if entries ≠ [] then
    { returnedPath := "Final-Project-Formula1/data/raw", fs := fs1,
      invokedKaggle := false }
  else
    match fs.kaggleFiles with
    | some files =>
        { returnedPath := "Final-Project-Formula1/data/raw",
          fs := { fs1 with destEntries := some (entries ++ files) },
          invokedKaggle := true }
    | none =>
        { returnedPath := "Final-Project-Formula1/data/raw", fs := fs1,
          invokedKaggle := true }

/-- C10: for a destination that exists and holds at least one entry,
`download_dataset` returns the destination path at once, does not invoke the
Kaggle download, and changes no file; hence calling it again on the state a
first call produced changes nothing. -/
theorem download_dataset_idempotent (fs : DownloadFS) (l : List String)
    (h1 : fs.destEntries = some l) (h2 : l ≠ []) :
    download_dataset fs =
      { returnedPath := "Final-Project-Formula1/data/raw", fs := fs,
        invokedKaggle := false } ∧
    download_dataset ((download_dataset fs).fs) = download_dataset fs := by
  have hfs1 : ({ fs with destEntries := some (fs.destEntries.getD []) }
      : DownloadFS) = fs := by
    cases fs
    subst h1
    rfl
  have hfirst : download_dataset fs =
      { returnedPath := "Final-Project-Formula1/data/raw", fs := fs,
        invokedKaggle := false } := by
    rw [download_dataset]
    rw [if_pos (by rw [h1]; exact fun he => h2 (by simpa using he))]
    rw [hfs1]
  refine ⟨hfirst, ?_⟩
  rw [hfirst]
  exact hfirst

/-- Witness for C10 at a populated destination directory. -/
theorem download_dataset_idempotent_witness :
    download_dataset ⟨some ["circuits.csv"], some []⟩ =
      { returnedPath := "Final-Project-Formula1/data/raw",
        fs := ⟨some ["circuits.csv"], some []⟩, invokedKaggle := false } ∧
    download_dataset ((download_dataset
        ⟨some ["circuits.csv"], some []⟩).fs) =
      download_dataset ⟨some ["circuits.csv"], some []⟩ :=
  download_dataset_idempotent ⟨some ["circuits.csv"], some []⟩
    ["circuits.csv"] rfl (by decide)

end F1
